import Mathlib

/-!
Shallow embedding of the Vision-Ai conversational client (src/app.jsx).

The embedding covers the parts of the program the verification targets:

* `pcmToWav` — the WAV container encoder, modelled byte for byte: the
  JavaScript function allocates an `ArrayBuffer` of size `44 + byteLength`,
  writes the header fields through a `DataView` (all multi-byte integers
  little-endian), and copies the samples through an `Int16Array` view at
  offset 44.  Buffers are `List Nat` (one entry per byte, each < 256) and
  each `DataView` setter is modelled explicitly.
* the retry loops of `sendMessage` / `handleSummarizeChat` — each capability
  path runs the same `while (retryCount < maxRetries) try/catch/finally`
  shape, differing only in whether `response.ok` is checked, in the parse of
  the response, and in the fixed fallback strings.  The loop is modelled as
  `retryLoop` over a `LoopConfig` per path; the environment supplies one
  `NetResult` per network attempt, and the observable side effects
  (appending turns, speaking, waiting, toggling the loading flag) are
  recorded as an ordered `List Event`.
* `sendMessage` routing, `handleSummarizeChat`, `fetchAndPlayGeminiTTS`
  (the speech-synthesis pipeline) and `getFilteredChatHistory`.

JavaScript string primitives used by the source (`toLowerCase`, `trim`,
`includes`, `startsWith`, `substring`, `atob`) are modelled as executable
functions over `List Char`, with ASCII semantics (the only code points the
relevant literals contain).
-/

/-- Message role: the source uses the string "user" for the user and
"vision" for the assistant. -/
inductive Role
  | user
  | vision
  deriving DecidableEq, Repr

/-- One chat message, as built by the source: a role, a text, and an
optional image URL (`imageUrl` field, present on the user turn when an
image is attached and on a successful image-generation reply). -/
structure Turn where
  role : Role
  text : String
  imageUrl : Option String
  deriving DecidableEq, Repr

/-- Observable side effects of the orchestration code, in program order.
`netCall` marks the start of one network attempt (`fetch`), `wait` the
backoff delay, `setLoading` the `setIsLoading` calls, `append` a
`setChatHistory(prev => [...prev, turn])`, `speak` a call into
`fetchAndPlayGeminiTTS`, `play` the handing of an encoded WAV buffer to the
audio element, `logError` a `console.error`. -/
inductive Event
  | suspendAudio
  | append (t : Turn)
  | setInput (s : String)
  | setLoading (b : Bool)
  | clearImage
  | netCall
  | wait (ms : Nat)
  | speak (s : String)
  | play (wav : List Nat)
  | logError (msg : String)
  | alert (msg : String)
  deriving DecidableEq, Repr

/- ---------------------------------------------------------------------
   JavaScript string primitives (ASCII semantics).
--------------------------------------------------------------------- -/

/-- `l` starts with `p` (models `String.prototype.startsWith` on the
character level). -/
def startsWithL : List Char → List Char → Bool
  | _, [] => true
  | [], _ :: _ => false
  | c :: cs, p :: ps => c == p && startsWithL cs ps

/-- `pat` occurs as a contiguous substring of `l` (models
`String.prototype.includes`). -/
def containsSub : List Char → List Char → Bool
  | [], pat => pat.isEmpty
  | c :: rest, pat => startsWithL (c :: rest) pat || containsSub rest pat

/-- Models `String.prototype.toLowerCase` (ASCII case mapping). -/
def lowerStr (s : String) : String := String.mk (s.toList.map Char.toLower)

/-- ASCII whitespace test used by `trimL`. -/
def isSpaceChar (c : Char) : Bool := c == ' ' || c == '\t' || c == '\n' || c == '\r'

/-- Models `String.prototype.trim` (ASCII whitespace). -/
def trimL (l : List Char) : List Char :=
  ((l.dropWhile isSpaceChar).reverse.dropWhile isSpaceChar).reverse

/-- Models `String.prototype.trim` on strings. -/
def trimStr (s : String) : String := String.mk (trimL s.toList)

/-- Models `s.substring(n)`: drop the first `n` characters. -/
def dropStr (s : String) (n : Nat) : String := String.mk (s.toList.drop n)

/- ---------------------------------------------------------------------
   AudioContainerEncoder: pcmToWav (src/app.jsx lines 94-138).

   `const buffer = new ArrayBuffer(44 + dataLength)` is a zero-filled byte
   buffer; `DataView.setUint8/16/32(..., true)` write little-endian at the
   given byte offsets; the samples are copied through
   `new Int16Array(buffer, 44)`.
--------------------------------------------------------------------- -/

/-- `view.setUint8(off, v)`: stores `v` modulo 256 at byte `off`. -/
def setUint8 (buf : List Nat) (off v : Nat) : List Nat := buf.set off (v % 256)

/-- `view.setUint16(off, v, true)`: little-endian 16-bit store. -/
def setUint16LE (buf : List Nat) (off v : Nat) : List Nat :=
  setUint8 (setUint8 buf off v) (off + 1) (v / 256)

/-- `view.setUint32(off, v, true)`: little-endian 32-bit store. -/
def setUint32LE (buf : List Nat) (off v : Nat) : List Nat :=
  setUint8 (setUint8 (setUint8 (setUint8 buf off v) (off + 1) (v / 256))
    (off + 2) (v / 65536)) (off + 3) (v / 16777216)

/-- The `writeString` helper of `pcmToWav`: one `setUint8` per character,
with `charCodeAt` modelled by `Char.toNat` (the literals are ASCII). -/
def writeString (buf : List Nat) (off : Nat) : List Char → List Nat
  | [] => buf
  | c :: cs => writeString (setUint8 buf off c.toNat) (off + 1) cs

/-- The 16-bit two\x27s-complement bit pattern of a sample, as stored by an
`Int16Array` element assignment (JavaScript ToInt16 conversion). -/
def int16Bits (v : Int) : Nat := (v % 65536).toNat

/-- One `pcmView[i] = pcmData[i]` store: a little-endian 16-bit write of
the sample bit pattern at byte offset `off`. -/
def setInt16LE (buf : List Nat) (off : Nat) (v : Int) : List Nat :=
  setUint16LE buf off (int16Bits v)

/-- The sample-copy loop of `pcmToWav`: `for (i = 0; i < pcmData.length; i++)
pcmView[i] = pcmData[i]`, i.e. consecutive 16-bit stores from `off`. -/
def writeSamples (buf : List Nat) (off : Nat) : List Int → List Nat
  | [] => buf
  | v :: vs => writeSamples (setInt16LE buf off v) (off + 2) vs

/-- The thirteen header writes of `pcmToWav`, in source order, on a buffer
whose first 44 bytes are the header region. -/
def wavHeaderWrites (buf : List Nat) (dataLength sampleRate : Nat) : List Nat :=
  let b := writeString buf 0 "RIFF".toList
  let b := setUint32LE b 4 (36 + dataLength)
  let b := writeString b 8 "WAVE".toList
  let b := writeString b 12 "fmt ".toList
  let b := setUint32LE b 16 16
  let b := setUint16LE b 20 1
  let b := setUint16LE b 22 1
  let b := setUint32LE b 24 sampleRate
  let b := setUint32LE b 28 (sampleRate * 2)
  let b := setUint16LE b 32 2
  let b := setUint16LE b 34 16
  let b := writeString b 36 "data".toList
  setUint32LE b 40 dataLength

/-- `pcmToWav(pcmData, sampleRate)` (src/app.jsx lines 94-138).  For an
`Int16Array` argument `pcmData.byteLength = 2 * pcmData.length`.  The
returned `Blob` wraps the whole buffer; the model returns its bytes. -/
def pcmToWav (pcmData : List Int) (sampleRate : Nat) : List Nat :=
  let dataLength := 2 * pcmData.length
  writeSamples (wavHeaderWrites (List.replicate (44 + dataLength) 0) dataLength sampleRate)
    44 pcmData

/-- Little-endian byte pair of a 16-bit value (specification-side layout
description, used to state what `pcmToWav` produces). -/
def le16 (v : Nat) : List Nat := [v % 256, v / 256 % 256]

/-- Little-endian byte quadruple of a 32-bit value (specification-side
layout description). -/
def le32 (v : Nat) : List Nat := [v % 256, v / 256 % 256, v / 65536 % 256, v / 16777216 % 256]

/-- The sample region of the container: every sample in order, as a
little-endian 16-bit bit pattern. -/
def sampleBytes (s : List Int) : List Nat := (s.map (fun v => le16 (int16Bits v))).flatten

/-- The 44 header bytes of the container produced for data length `dl` and
sample rate `r`: "RIFF", 36 + dl as uint32-LE, "WAVE", "fmt ", 16, format 1,
1 channel, sample rate, byte rate, block align 2, 16 bits per sample,
"data", dl as uint32-LE. -/
def headerBytes (dl r : Nat) : List Nat :=
  [82, 73, 70, 70,
    (36 + dl) % 256, (36 + dl) / 256 % 256, (36 + dl) / 65536 % 256, (36 + dl) / 16777216 % 256,
    87, 65, 86, 69,
    102, 109, 116, 32,
    16, 0, 0, 0,
    1, 0,
    1, 0,
    r % 256, r / 256 % 256, r / 65536 % 256, r / 16777216 % 256,
    r * 2 % 256, r * 2 / 256 % 256, r * 2 / 65536 % 256, r * 2 / 16777216 % 256,
    2, 0,
    16, 0,
    100, 97, 116, 97,
    dl % 256, dl / 256 % 256, dl / 65536 % 256, dl / 16777216 % 256]

/- ---------------------------------------------------------------------
   ResilientExecutor: the retry loop shared by all capability paths
   (src/app.jsx lines 283-322, 366-402, 409-447, 473-512).
--------------------------------------------------------------------- -/

/-- Environment view of one network attempt: either the `fetch` (or a later
`await` in the try block) throws, or it yields a response with a transport
status (`ok`) and the text/payload field the path extracts from the parsed
JSON (`none` when the expected field is absent). -/
inductive NetResult
  | netThrow
  | resp (ok : Bool) (text : Option String)
  deriving DecidableEq, Repr

/-- Per-path data of the retry loop: whether the path checks `response.ok`
(and throws on a non-success status), the events of a successful parse, and
the two fixed fallback strings (malformed response / retries exhausted). -/
structure LoopConfig where
  checksOk : Bool
  onSuccess : String → List Event
  parseFailMsg : String
  exhaustMsg : String

/-- One iteration body of the `try` block: `none` means the attempt threw
(network error, or the explicit `throw` on `!response.ok` for the paths
that check it) and control reaches the `catch`; `some evs` means the try
block ran to its `break`, emitting `evs`.  A response whose expected field
is absent is handled inside the try block (fixed fallback, then `break`). -/
def attemptOutcome (cfg : LoopConfig) : NetResult → Option (List Event)
  | NetResult.netThrow => none
  | NetResult.resp ok text =>
    if !ok && cfg.checksOk then none
    else
      match text with
      | some t => some (cfg.onSuccess t)
      | none => some [Event.append ⟨Role.vision, cfg.parseFailMsg, none⟩,
          Event.speak cfg.parseFailMsg]

/-- The `while (retryCount < maxRetries) { try ... catch ... finally ... }`
loop with `maxRetries = 3`, `baseDelay = 1000`.  The environment supplies
one `NetResult` per attempt.  On a completed try block the loop `break`s
(after the `finally` releases the loading flag); on a caught error the
counter is incremented and either the backoff `baseDelay * 2 ^ retryCount`
is awaited (then `finally`, then the next iteration) or, at the final
attempt, the fixed exhaustion fallback is appended and spoken. -/
def retryLoop (cfg : LoopConfig) : List NetResult → Nat → List Event
  | [], _ => []
  | n :: rest, retryCount =>
    if retryCount < 3 then
      Event.netCall ::
        match attemptOutcome cfg n with
        | some evs => evs ++ [Event.setLoading false]
        | none =>
          if retryCount + 1 < 3 then
            Event.wait (1000 * 2 ^ (retryCount + 1)) :: Event.setLoading false ::
              retryLoop cfg rest (retryCount + 1)
          else
            [Event.append ⟨Role.vision, cfg.exhaustMsg, none⟩,
              Event.speak cfg.exhaustMsg, Event.setLoading false]
    else []

/-- Image-analysis path (src/app.jsx lines 366-402): no `response.ok`
check; a parsed `text` is appended and spoken verbatim. -/
def imageAnalysisCfg : LoopConfig where
  checksOk := false
  onSuccess := fun t => [Event.append ⟨Role.vision, t, none⟩, Event.speak t]
  parseFailMsg := "Sorry, I couldn\x27t analyze the image. The API returned an unexpected format."
  exhaustMsg := "I am unable to analyze the image at this time. Please try again later."

/-- Image-generation path (src/app.jsx lines 409-447): no `response.ok`
check; on success the fixed text is appended together with a data URL built
from the returned base64 payload, and the fixed text is spoken. -/
def imageGenCfg : LoopConfig where
  checksOk := false
  onSuccess := fun b =>
    [Event.append ⟨Role.vision, "Image generated successfully.",
        some ("data:image/png;base64," ++ b)⟩,
      Event.speak "Image generated successfully."]
  parseFailMsg := "I\x27m sorry, I encountered an issue generating the image."
  exhaustMsg := "I am unable to generate the image at this time. Please try again later."

/-- General-conversation path (src/app.jsx lines 473-512): checks
`response.ok` and throws on a non-success status. -/
def generalCfg : LoopConfig where
  checksOk := true
  onSuccess := fun t => [Event.append ⟨Role.vision, t, none⟩, Event.speak t]
  parseFailMsg := "Sorry, I couldn\x27t generate a response. The API returned an unexpected format."
  exhaustMsg := "I\x27m sorry, I am currently unable to process your request. Please try again later."

/-- Summarization path (src/app.jsx lines 283-322): checks `response.ok`;
on success the summary is appended with a fixed prefix while a fixed short
announcement is spoken. -/
def summarizeCfg : LoopConfig where
  checksOk := true
  onSuccess := fun t =>
    [Event.append ⟨Role.vision, "Here is a summary of our conversation:\n\n" ++ t, none⟩,
      Event.speak "Here is a summary of our conversation."]
  parseFailMsg := "Sorry, I couldn\x27t summarize the conversation."
  exhaustMsg := "I\x27m sorry, I am currently unable to summarize the conversation. Please try again later."

/- ---------------------------------------------------------------------
   CapabilityRouter: sendMessage (src/app.jsx lines 326-514) and
   handleSummarizeChat (lines 265-323).
--------------------------------------------------------------------- -/

/-- The attached image as `sendMessage` sees it: its data URL (shown in the
user turn), its declared MIME type, and the base64 payload produced by
`fileToBase64`. -/
structure UploadedImage where
  dataUrl : String
  fileType : String
  base64 : String
  deriving DecidableEq, Repr

/-- The image-generation trigger phrase. -/
def imagePromptPrefix : String := "generate an image of"

/-- `sendMessage(message)` (src/app.jsx lines 326-514) with the component
state `uploadedImage` and the environment-supplied network outcomes.  It
returns the ordered observable side effects: the early return when the
trimmed message is empty and no image is attached; otherwise suspending
audio, appending the user turn (with the attachment data URL when
present), clearing the input, raising the loading flag, and routing to the
image-analysis, image-generation, or general-conversation retry loop.  The
request payload construction (prompt text, inline image bytes) performs no
observable conversation effect and is not recorded as an event. -/
def sendMessage (message : String) (uploadedImage : Option UploadedImage)
    (results : List NetResult) : List Event :=
  if trimStr message = "" ∧ uploadedImage = none then []
  else
    Event.suspendAudio ::
      Event.append ⟨Role.user, message, uploadedImage.map UploadedImage.dataUrl⟩ ::
      Event.setInput "" ::
      Event.setLoading true ::
      match uploadedImage with
      | some _ =>
        Event.append ⟨Role.vision, "Analyzing the image provided...", none⟩ ::
          Event.clearImage ::
          retryLoop imageAnalysisCfg results 0
      | none =>
        if startsWithL (lowerStr message).toList imagePromptPrefix.toList then
          Event.append ⟨Role.vision,
              "Generating an image of: \"" ++
                trimStr (dropStr message imagePromptPrefix.length) ++ "\"...", none⟩ ::
            retryLoop imageGenCfg results 0
        else
          retryLoop generalCfg results 0

/-- `handleSummarizeChat` (src/app.jsx lines 265-323): alert and return on
an empty history, otherwise raise the loading flag and run the
summarization retry loop. -/
def handleSummarizeChat (chatHistory : List Turn) (results : List NetResult) : List Event :=
  if chatHistory.length = 0 then [Event.alert "No messages to summarize!"]
  else Event.setLoading true :: retryLoop summarizeCfg results 0

/- ---------------------------------------------------------------------
   SpeechSynthesisPipeline: fetchAndPlayGeminiTTS (src/app.jsx 207-246).
--------------------------------------------------------------------- -/

/-- Environment view of one TTS call: the `fetch`/`json()` throws, or
yields a response from which optional chaining extracts
`part?.inlineData?.data` and `part?.inlineData?.mimeType`. -/
inductive TTSNet
  | netThrow
  | resp (audioData : Option String) (mimeType : Option String)
  deriving DecidableEq, Repr

/-- JavaScript truthiness of the two extracted fields: present and not the
empty string. -/
def truthy : Option String → Bool
  | none => false
  | some s => !(s == "")

/-- Maximal leading digit run (the `\d+` capture). -/
def takeDigits : List Char → List Char
  | [] => []
  | c :: rest => if c.isDigit then c :: takeDigits rest else []

/-- Decimal value of a digit run (the `parseInt(..., 10)` of the capture). -/
def digitsVal (ds : List Char) : Nat := ds.foldl (fun acc c => acc * 10 + (c.toNat - 48)) 0

/-- Models `mimeType.match(/rate=(\d+)/)`: scan for an occurrence of
`rate=` followed by at least one digit and return the decimal value of the
maximal digit run; `none` when the pattern never matches (the JavaScript
`match` returns `null`). -/
def findRate : List Char → Option Nat
  | [] => none
  | c :: rest =>
    match c, rest with
    | 'r', 'a' :: 't' :: 'e' :: '=' :: rest2 =>
      let ds := takeDigits rest2
      if ds.isEmpty then findRate rest else some (digitsVal ds)
    | _, _ => findRate rest

/-- Value of one base64 alphabet character (`window.atob` alphabet);
`none` for a character outside the alphabet (atob throws). -/
def b64Val (c : Char) : Option Nat :=
  if 'A' ≤ c ∧ c ≤ 'Z' then some (c.toNat - 65)
  else if 'a' ≤ c ∧ c ≤ 'z' then some (c.toNat - 97 + 26)
  else if '0' ≤ c ∧ c ≤ '9' then some (c.toNat - 48 + 52)
  else if c = '+' then some 62
  else if c = '/' then some 63
  else none

/-- Base64 decoding of a padding-stripped character sequence to bytes;
`none` models the `InvalidCharacterError` thrown by `window.atob` on
malformed input. -/
def atobChars : List Char → Option (List Nat)
  | [] => some []
  | [_] => none
  | [a, b] =>
    match b64Val a, b64Val b with
    | some va, some vb => some [va * 4 + vb / 16]
    | _, _ => none
  | [a, b, c] =>
    match b64Val a, b64Val b, b64Val c with
    | some va, some vb, some vc => some [va * 4 + vb / 16, vb % 16 * 16 + vc / 4]
    | _, _, _ => none
  | a :: b :: c :: d :: rest =>
    match b64Val a, b64Val b, b64Val c, b64Val d, atobChars rest with
    | some va, some vb, some vc, some vd, some tail =>
      some ((va * 4 + vb / 16) :: (vb % 16 * 16 + vc / 4) :: (vc % 4 * 64 + vd) :: tail)
    | _, _, _, _, _ => none

/-- Models `base64ToArrayBuffer` (src/app.jsx lines 84-92): `window.atob`
then one byte per code unit.  Trailing `=` padding is stripped first. -/
def base64ToArrayBuffer (s : String) : Option (List Nat) :=
  atobChars ((s.toList.reverse.dropWhile (fun c => c = '=')).reverse)

/-- Models `new Int16Array(pcmData)`: reinterpret the byte buffer as
little-endian signed 16-bit samples; `none` models the `RangeError` thrown
when the byte length is odd. -/
def bytesToInt16s : List Nat → Option (List Int)
  | [] => some []
  | [_] => none
  | lo :: hi :: rest =>
    match bytesToInt16s rest with
    | some tail =>
      some ((if lo + 256 * hi < 32768 then (lo + 256 * hi : Int)
        else (lo + 256 * hi : Int) - 65536) :: tail)
    | none => none

/-- The `try` block body of `fetchAndPlayGeminiTTS` after the response is
available: `none` models an exception thrown inside the block (the
`TypeError` when `mimeType.match(/rate=(\d+)/)` is `null`, an atob error,
or an odd byte length), which the surrounding `catch` receives. -/
def ttsTryBody (audioData mimeType : Option String) : Option (List Event) :=
  if truthy audioData && truthy mimeType &&
      startsWithL (mimeType.getD "").toList "audio/".toList then
    match findRate (mimeType.getD "").toList with
    | none => none
    | some rate =>
      match base64ToArrayBuffer (audioData.getD "") with
      | none => none
      | some bytes =>
        match bytesToInt16s bytes with
        | none => none
        | some pcm => some [Event.play (pcmToWav pcm rate)]
  else some [Event.logError "Gemini TTS API response missing audio data."]

/-- `fetchAndPlayGeminiTTS` (src/app.jsx lines 207-246): the whole body is
wrapped in `try/catch`; a network error or any exception inside the try
block is logged by the `catch`, a response without usable audio fields is
logged inside the `try`.  The function is total: no exception reaches the
caller. -/
def fetchAndPlayGeminiTTS (net : TTSNet) : List Event :=
  match net with
  | TTSNet.netThrow => [Event.logError "Error calling Gemini TTS API:"]
  | TTSNet.resp audioData mimeType =>
    match ttsTryBody audioData mimeType with
    | some evs => evs
    | none => [Event.logError "Error calling Gemini TTS API:"]

/- ---------------------------------------------------------------------
   ConversationStore: getFilteredChatHistory (src/app.jsx lines 521-529).
--------------------------------------------------------------------- -/

/-- `getFilteredChatHistory` (src/app.jsx lines 521-529): an empty (falsy)
search query returns the history unchanged; otherwise the turns whose
lowercased text contains the lowercased query are kept, via
`Array.prototype.filter`. -/
def getFilteredChatHistory (chatHistory : List Turn) (searchQuery : String) : List Turn :=
  if searchQuery = "" then chatHistory
  else
    chatHistory.filter
      (fun msg => containsSub (lowerStr msg.text).toList (lowerStr searchQuery).toList)

/- ---------------------------------------------------------------------
   Observation helpers over event traces.
--------------------------------------------------------------------- -/

/-- Number of network attempts started in a trace. -/
def countNetCalls : List Event → Nat
  | [] => 0
  | Event.netCall :: rest => countNetCalls rest + 1
  | _ :: rest => countNetCalls rest

/-- Number of turns appended in a trace. -/
def countAppends : List Event → Nat
  | [] => 0
  | Event.append _ :: rest => countAppends rest + 1
  | _ :: rest => countAppends rest

/-- Number of speech-synthesis invocations in a trace. -/
def countSpeaks : List Event → Nat
  | [] => 0
  | Event.speak _ :: rest => countSpeaks rest + 1
  | _ :: rest => countSpeaks rest

/-- Number of backoff waits in a trace. -/
def countWaits : List Event → Nat
  | [] => 0
  | Event.wait _ :: rest => countWaits rest + 1
  | _ :: rest => countWaits rest

/-- Number of `setIsLoading(false)` releases in a trace. -/
def countLoadingFalse : List Event → Nat
  | [] => 0
  | Event.setLoading false :: rest => countLoadingFalse rest + 1
  | _ :: rest => countLoadingFalse rest

/-- The conversation produced by replaying the appends of a trace (the
source only ever appends inside a dispatch; nothing removes a turn). -/
def replayTurns (evs : List Event) : List Turn :=
  match evs with
  | [] => []
  | Event.append t :: rest => t :: replayTurns rest
  | _ :: rest => replayTurns rest

/-- The first turn appended in a trace, if any. -/
def firstAppend : List Event → Option Turn
  | [] => none
  | Event.append t :: _ => some t
  | _ :: rest => firstAppend rest

/-- The turn `t` is appended strictly before the first network attempt of
the trace: scanning in program order, an `append t` occurs before any
`netCall` (false when a `netCall` comes first or `t` is never appended). -/
def appendBeforeNetCalls (t : Turn) : List Event → Bool
  | [] => false
  | Event.netCall :: _ => false
  | Event.append u :: rest => u == t || appendBeforeNetCalls t rest
  | _ :: rest => appendBeforeNetCalls t rest

/-- Every appended turn is immediately followed by a speech-synthesis
invocation whose argument the relation `ok` accepts for that turn. -/
def repliesSpoken (ok : Turn → String → Bool) : List Event → Bool
  | [] => true
  | Event.append t :: Event.speak s :: rest => ok t s && repliesSpoken ok rest
  | Event.append _ :: _ => false
  | _ :: rest => repliesSpoken ok rest

/-- The spoken string is exactly the appended turn text. -/
def speaksOwnText (t : Turn) (s : String) : Bool := s == t.text

/-- The spoken string is the appended turn text, or the fixed summarization
announcement. -/
def speaksOwnTextOrAnnounce (t : Turn) (s : String) : Bool :=
  s == t.text || s == "Here is a summary of our conversation."

/-- Demonstration store for the filter example of the specification. -/
def demoTurns : List Turn :=
  [⟨Role.user, "Hello there", none⟩, ⟨Role.vision, "goodbye", none⟩,
    ⟨Role.user, "say hello again", none⟩]

/- ---------------------------------------------------------------------
   Helper lemmas.
--------------------------------------------------------------------- -/

theorem set_append_right (A B : List Nat) (k v : Nat) :
    (A ++ B).set (A.length + k) v = A ++ B.set k v := by
  induction A with
  | nil => simp
  | cons a A ih => simp [List.length_cons, Nat.add_right_comm, ih]

theorem wavHeaderWrites_eval (dl r : Nat) (B : List Nat) :
    wavHeaderWrites (List.replicate 44 0 ++ B) dl r = headerBytes dl r ++ B := by
  have h1 : writeString (List.replicate 44 0 ++ B) 0 "RIFF".toList =
      [82, 73, 70, 70] ++ (List.replicate 40 0 ++ B) := rfl
  have h2 : setUint32LE ([82, 73, 70, 70] ++ (List.replicate 40 0 ++ B)) 4 (36 + dl) =
      [82, 73, 70, 70,
        (36 + dl) % 256, (36 + dl) / 256 % 256, (36 + dl) / 65536 % 256,
        (36 + dl) / 16777216 % 256] ++ (List.replicate 36 0 ++ B) := rfl
  have h3 : writeString ([82, 73, 70, 70,
        (36 + dl) % 256, (36 + dl) / 256 % 256, (36 + dl) / 65536 % 256,
        (36 + dl) / 16777216 % 256] ++ (List.replicate 36 0 ++ B)) 8 "WAVE".toList =
      [82, 73, 70, 70,
        (36 + dl) % 256, (36 + dl) / 256 % 256, (36 + dl) / 65536 % 256,
        (36 + dl) / 16777216 % 256,
        87, 65, 86, 69] ++ (List.replicate 32 0 ++ B) := rfl
  have h4 : writeString ([82, 73, 70, 70,
        (36 + dl) % 256, (36 + dl) / 256 % 256, (36 + dl) / 65536 % 256,
        (36 + dl) / 16777216 % 256,
        87, 65, 86, 69] ++ (List.replicate 32 0 ++ B)) 12 "fmt ".toList =
      [82, 73, 70, 70,
        (36 + dl) % 256, (36 + dl) / 256 % 256, (36 + dl) / 65536 % 256,
        (36 + dl) / 16777216 % 256,
        87, 65, 86, 69, 102, 109, 116, 32] ++ (List.replicate 28 0 ++ B) := rfl
  have h5 : setUint32LE ([82, 73, 70, 70,
        (36 + dl) % 256, (36 + dl) / 256 % 256, (36 + dl) / 65536 % 256,
        (36 + dl) / 16777216 % 256,
        87, 65, 86, 69, 102, 109, 116, 32] ++ (List.replicate 28 0 ++ B)) 16 16 =
      [82, 73, 70, 70,
        (36 + dl) % 256, (36 + dl) / 256 % 256, (36 + dl) / 65536 % 256,
        (36 + dl) / 16777216 % 256,
        87, 65, 86, 69, 102, 109, 116, 32, 16, 0, 0, 0] ++ (List.replicate 24 0 ++ B) := rfl
  have h6 : setUint16LE ([82, 73, 70, 70,
        (36 + dl) % 256, (36 + dl) / 256 % 256, (36 + dl) / 65536 % 256,
        (36 + dl) / 16777216 % 256,
        87, 65, 86, 69, 102, 109, 116, 32, 16, 0, 0, 0] ++ (List.replicate 24 0 ++ B)) 20 1 =
      [82, 73, 70, 70,
        (36 + dl) % 256, (36 + dl) / 256 % 256, (36 + dl) / 65536 % 256,
        (36 + dl) / 16777216 % 256,
        87, 65, 86, 69, 102, 109, 116, 32, 16, 0, 0, 0, 1, 0] ++
        (List.replicate 22 0 ++ B) := rfl
  have h7 : setUint16LE ([82, 73, 70, 70,
        (36 + dl) % 256, (36 + dl) / 256 % 256, (36 + dl) / 65536 % 256,
        (36 + dl) / 16777216 % 256,
        87, 65, 86, 69, 102, 109, 116, 32, 16, 0, 0, 0, 1, 0] ++
        (List.replicate 22 0 ++ B)) 22 1 =
      [82, 73, 70, 70,
        (36 + dl) % 256, (36 + dl) / 256 % 256, (36 + dl) / 65536 % 256,
        (36 + dl) / 16777216 % 256,
        87, 65, 86, 69, 102, 109, 116, 32, 16, 0, 0, 0, 1, 0, 1, 0] ++
        (List.replicate 20 0 ++ B) := rfl
  have h8 : setUint32LE ([82, 73, 70, 70,
        (36 + dl) % 256, (36 + dl) / 256 % 256, (36 + dl) / 65536 % 256,
        (36 + dl) / 16777216 % 256,
        87, 65, 86, 69, 102, 109, 116, 32, 16, 0, 0, 0, 1, 0, 1, 0] ++
        (List.replicate 20 0 ++ B)) 24 r =
      [82, 73, 70, 70,
        (36 + dl) % 256, (36 + dl) / 256 % 256, (36 + dl) / 65536 % 256,
        (36 + dl) / 16777216 % 256,
        87, 65, 86, 69, 102, 109, 116, 32, 16, 0, 0, 0, 1, 0, 1, 0,
        r % 256, r / 256 % 256, r / 65536 % 256, r / 16777216 % 256] ++
        (List.replicate 16 0 ++ B) := rfl
  have h9 : setUint32LE ([82, 73, 70, 70,
        (36 + dl) % 256, (36 + dl) / 256 % 256, (36 + dl) / 65536 % 256,
        (36 + dl) / 16777216 % 256,
        87, 65, 86, 69, 102, 109, 116, 32, 16, 0, 0, 0, 1, 0, 1, 0,
        r % 256, r / 256 % 256, r / 65536 % 256, r / 16777216 % 256] ++
        (List.replicate 16 0 ++ B)) 28 (r * 2) =
      [82, 73, 70, 70,
        (36 + dl) % 256, (36 + dl) / 256 % 256, (36 + dl) / 65536 % 256,
        (36 + dl) / 16777216 % 256,
        87, 65, 86, 69, 102, 109, 116, 32, 16, 0, 0, 0, 1, 0, 1, 0,
        r % 256, r / 256 % 256, r / 65536 % 256, r / 16777216 % 256,
        r * 2 % 256, r * 2 / 256 % 256, r * 2 / 65536 % 256, r * 2 / 16777216 % 256] ++
        (List.replicate 12 0 ++ B) := rfl
  have h10 : setUint16LE ([82, 73, 70, 70,
        (36 + dl) % 256, (36 + dl) / 256 % 256, (36 + dl) / 65536 % 256,
        (36 + dl) / 16777216 % 256,
        87, 65, 86, 69, 102, 109, 116, 32, 16, 0, 0, 0, 1, 0, 1, 0,
        r % 256, r / 256 % 256, r / 65536 % 256, r / 16777216 % 256,
        r * 2 % 256, r * 2 / 256 % 256, r * 2 / 65536 % 256, r * 2 / 16777216 % 256] ++
        (List.replicate 12 0 ++ B)) 32 2 =
      [82, 73, 70, 70,
        (36 + dl) % 256, (36 + dl) / 256 % 256, (36 + dl) / 65536 % 256,
        (36 + dl) / 16777216 % 256,
        87, 65, 86, 69, 102, 109, 116, 32, 16, 0, 0, 0, 1, 0, 1, 0,
        r % 256, r / 256 % 256, r / 65536 % 256, r / 16777216 % 256,
        r * 2 % 256, r * 2 / 256 % 256, r * 2 / 65536 % 256, r * 2 / 16777216 % 256,
        2, 0] ++ (List.replicate 10 0 ++ B) := rfl
  have h11 : setUint16LE ([82, 73, 70, 70,
        (36 + dl) % 256, (36 + dl) / 256 % 256, (36 + dl) / 65536 % 256,
        (36 + dl) / 16777216 % 256,
        87, 65, 86, 69, 102, 109, 116, 32, 16, 0, 0, 0, 1, 0, 1, 0,
        r % 256, r / 256 % 256, r / 65536 % 256, r / 16777216 % 256,
        r * 2 % 256, r * 2 / 256 % 256, r * 2 / 65536 % 256, r * 2 / 16777216 % 256,
        2, 0] ++ (List.replicate 10 0 ++ B)) 34 16 =
      [82, 73, 70, 70,
        (36 + dl) % 256, (36 + dl) / 256 % 256, (36 + dl) / 65536 % 256,
        (36 + dl) / 16777216 % 256,
        87, 65, 86, 69, 102, 109, 116, 32, 16, 0, 0, 0, 1, 0, 1, 0,
        r % 256, r / 256 % 256, r / 65536 % 256, r / 16777216 % 256,
        r * 2 % 256, r * 2 / 256 % 256, r * 2 / 65536 % 256, r * 2 / 16777216 % 256,
        2, 0, 16, 0] ++ (List.replicate 8 0 ++ B) := rfl
  have h12 : writeString ([82, 73, 70, 70,
        (36 + dl) % 256, (36 + dl) / 256 % 256, (36 + dl) / 65536 % 256,
        (36 + dl) / 16777216 % 256,
        87, 65, 86, 69, 102, 109, 116, 32, 16, 0, 0, 0, 1, 0, 1, 0,
        r % 256, r / 256 % 256, r / 65536 % 256, r / 16777216 % 256,
        r * 2 % 256, r * 2 / 256 % 256, r * 2 / 65536 % 256, r * 2 / 16777216 % 256,
        2, 0, 16, 0] ++ (List.replicate 8 0 ++ B)) 36 "data".toList =
      [82, 73, 70, 70,
        (36 + dl) % 256, (36 + dl) / 256 % 256, (36 + dl) / 65536 % 256,
        (36 + dl) / 16777216 % 256,
        87, 65, 86, 69, 102, 109, 116, 32, 16, 0, 0, 0, 1, 0, 1, 0,
        r % 256, r / 256 % 256, r / 65536 % 256, r / 16777216 % 256,
        r * 2 % 256, r * 2 / 256 % 256, r * 2 / 65536 % 256, r * 2 / 16777216 % 256,
        2, 0, 16, 0, 100, 97, 116, 97] ++ (List.replicate 4 0 ++ B) := rfl
  have h13 : setUint32LE ([82, 73, 70, 70,
        (36 + dl) % 256, (36 + dl) / 256 % 256, (36 + dl) / 65536 % 256,
        (36 + dl) / 16777216 % 256,
        87, 65, 86, 69, 102, 109, 116, 32, 16, 0, 0, 0, 1, 0, 1, 0,
        r % 256, r / 256 % 256, r / 65536 % 256, r / 16777216 % 256,
        r * 2 % 256, r * 2 / 256 % 256, r * 2 / 65536 % 256, r * 2 / 16777216 % 256,
        2, 0, 16, 0, 100, 97, 116, 97] ++ (List.replicate 4 0 ++ B)) 40 dl =
      headerBytes dl r ++ B := rfl
  simp only [wavHeaderWrites]
  rw [h1, h2, h3, h4, h5, h6, h7, h8, h9, h10, h11, h12, h13]

theorem sampleBytes_cons (v : Int) (vs : List Int) :
    sampleBytes (v :: vs) =
      int16Bits v % 256 :: int16Bits v / 256 % 256 :: sampleBytes vs := rfl

theorem sampleBytes_length (s : List Int) : (sampleBytes s).length = 2 * s.length := by
  induction s with
  | nil => rfl
  | cons v vs ih => rw [sampleBytes_cons]; simp [ih]; omega

theorem writeSamples_eval (s : List Int) :
    ∀ (A : List Nat), writeSamples (A ++ List.replicate (2 * s.length) 0) A.length s =
      A ++ sampleBytes s := by
  induction s with
  | nil => intro A; simp [writeSamples, sampleBytes]
  | cons v vs ih =>
    intro A
    have hrep : List.replicate (2 * (v :: vs).length) 0 =
        0 :: 0 :: List.replicate (2 * vs.length) 0 := by
      have h2 : 2 * (v :: vs).length = 2 + 2 * vs.length := by
        simp [List.length_cons]; omega
      rw [h2, List.replicate_add]
      rfl
    rw [hrep]
    show writeSamples (setInt16LE (A ++ 0 :: 0 :: List.replicate (2 * vs.length) 0) A.length v)
      (A.length + 2) vs = A ++ sampleBytes (v :: vs)
    have hs1 : setUint8 (A ++ 0 :: 0 :: List.replicate (2 * vs.length) 0) A.length
        (int16Bits v) =
        A ++ int16Bits v % 256 :: 0 :: List.replicate (2 * vs.length) 0 := by
      have h := set_append_right A (0 :: 0 :: List.replicate (2 * vs.length) 0) 0
        (int16Bits v % 256)
      simpa [setUint8] using h
    have hs2 : setUint8 (A ++ int16Bits v % 256 :: 0 :: List.replicate (2 * vs.length) 0)
        (A.length + 1) (int16Bits v / 256) =
        A ++ int16Bits v % 256 :: int16Bits v / 256 % 256 ::
          List.replicate (2 * vs.length) 0 := by
      have h := set_append_right A
        (int16Bits v % 256 :: 0 :: List.replicate (2 * vs.length) 0) 1
        (int16Bits v / 256 % 256)
      simpa [setUint8] using h
    rw [show setInt16LE (A ++ 0 :: 0 :: List.replicate (2 * vs.length) 0) A.length v =
        setUint8 (setUint8 (A ++ 0 :: 0 :: List.replicate (2 * vs.length) 0) A.length
          (int16Bits v)) (A.length + 1) (int16Bits v / 256) from rfl, hs1, hs2]
    have hA2 : A ++ int16Bits v % 256 :: int16Bits v / 256 % 256 ::
        List.replicate (2 * vs.length) 0 =
        (A ++ [int16Bits v % 256, int16Bits v / 256 % 256]) ++
          List.replicate (2 * vs.length) 0 := by
      simp
    have hlen : A.length + 2 = (A ++ [int16Bits v % 256, int16Bits v / 256 % 256]).length := by
      simp
    rw [hA2, hlen, ih]
    simp [sampleBytes_cons]

theorem headerBytes_length (dl r : Nat) : (headerBytes dl r).length = 44 := rfl

theorem pcmToWav_layout (s : List Int) (r : Nat) :
    pcmToWav s r = headerBytes (2 * s.length) r ++ sampleBytes s := by
  show writeSamples
      (wavHeaderWrites (List.replicate (44 + 2 * s.length) 0) (2 * s.length) r) 44 s = _
  rw [List.replicate_add, wavHeaderWrites_eval]
  have h44 : (44 : Nat) = (headerBytes (2 * s.length) r).length := rfl
  rw [h44, writeSamples_eval]

theorem countLoadingFalse_append (a b : List Event) :
    countLoadingFalse (a ++ b) = countLoadingFalse a + countLoadingFalse b := by
  induction a with
  | nil => simp [countLoadingFalse]
  | cons e rest ih =>
    cases e with
    | setLoading v => cases v <;> simp [countLoadingFalse, ih] <;> omega
    | _ => simp [countLoadingFalse, ih]

theorem countNetCalls_append (a b : List Event) :
    countNetCalls (a ++ b) = countNetCalls a + countNetCalls b := by
  induction a with
  | nil => simp [countNetCalls]
  | cons e rest ih => cases e <;> simp [countNetCalls, ih] <;> omega

theorem loadingFalse_eq_netCalls_retryLoop (cfg : LoopConfig)
    (h0 : ∀ t, countLoadingFalse (cfg.onSuccess t) = 0)
    (h1 : ∀ t, countNetCalls (cfg.onSuccess t) = 0) :
    ∀ (results : List NetResult) (rc : Nat),
      countLoadingFalse (retryLoop cfg results rc) =
      countNetCalls (retryLoop cfg results rc) := by
  intro results
  induction results with
  | nil => intro rc; rfl
  | cons n rest ih =>
    intro rc
    by_cases h3 : rc < 3
    · cases n with
      | netThrow =>
        by_cases h4 : rc + 1 < 3
        · simp [retryLoop, attemptOutcome, h3, h4, countLoadingFalse, countNetCalls, ih]
        · simp [retryLoop, attemptOutcome, h3, h4, countLoadingFalse, countNetCalls]
      | resp ok text =>
        cases ok with
        | true =>
          cases text with
          | some t =>
            simp [retryLoop, attemptOutcome, h3, countLoadingFalse, countNetCalls,
              countLoadingFalse_append, countNetCalls_append, h0 t, h1 t]
          | none =>
            simp [retryLoop, attemptOutcome, h3, countLoadingFalse, countNetCalls]
        | false =>
          cases hc : cfg.checksOk with
          | true =>
            by_cases h4 : rc + 1 < 3
            · simp [retryLoop, attemptOutcome, h3, h4, hc, countLoadingFalse,
                countNetCalls, ih]
            · simp [retryLoop, attemptOutcome, h3, h4, hc, countLoadingFalse, countNetCalls]
          | false =>
            cases text with
            | some t =>
              simp [retryLoop, attemptOutcome, h3, hc, countLoadingFalse, countNetCalls,
                countLoadingFalse_append, countNetCalls_append, h0 t, h1 t]
            | none =>
              simp [retryLoop, attemptOutcome, h3, hc, countLoadingFalse, countNetCalls]
    · simp [retryLoop, h3, countLoadingFalse, countNetCalls]

theorem one_loadingFalse_retryLoop (cfg : LoopConfig) (n : NetResult)
    (rest : List NetResult) :
    1 ≤ countLoadingFalse (retryLoop cfg (n :: rest) 0) := by
  cases n with
  | netThrow => simp [retryLoop, attemptOutcome, countLoadingFalse]
  | resp ok text =>
    cases ok with
    | true =>
      cases text with
      | some t =>
        simp [retryLoop, attemptOutcome, countLoadingFalse, countLoadingFalse_append]
      | none => simp [retryLoop, attemptOutcome, countLoadingFalse]
    | false =>
      cases hc : cfg.checksOk with
      | true => simp [retryLoop, attemptOutcome, hc, countLoadingFalse]
      | false =>
        cases text with
        | some t =>
          simp [retryLoop, attemptOutcome, hc, countLoadingFalse, countLoadingFalse_append]
        | none => simp [retryLoop, attemptOutcome, hc, countLoadingFalse]

theorem repliesSpoken_retryLoop (cfg : LoopConfig) (ok : Turn → String → Bool)
    (hs : ∀ t, repliesSpoken ok (cfg.onSuccess t ++ [Event.setLoading false]) = true)
    (hp : ok ⟨Role.vision, cfg.parseFailMsg, none⟩ cfg.parseFailMsg = true)
    (he : ok ⟨Role.vision, cfg.exhaustMsg, none⟩ cfg.exhaustMsg = true) :
    ∀ (results : List NetResult) (rc : Nat),
      repliesSpoken ok (retryLoop cfg results rc) = true := by
  intro results
  induction results with
  | nil => intro rc; rfl
  | cons n rest ih =>
    intro rc
    by_cases h3 : rc < 3
    · cases n with
      | netThrow =>
        by_cases h4 : rc + 1 < 3
        · simp [retryLoop, attemptOutcome, h3, h4, repliesSpoken, ih]
        · simp [retryLoop, attemptOutcome, h3, h4, repliesSpoken, hp, he]
      | resp ok2 text =>
        cases ok2 with
        | true =>
          cases text with
          | some t => simp [retryLoop, attemptOutcome, h3, repliesSpoken, hs t]
          | none => simp [retryLoop, attemptOutcome, h3, repliesSpoken, hp]
        | false =>
          cases hc : cfg.checksOk with
          | true =>
            by_cases h4 : rc + 1 < 3
            · simp [retryLoop, attemptOutcome, h3, h4, hc, repliesSpoken, ih]
            · simp [retryLoop, attemptOutcome, h3, h4, hc, repliesSpoken, hp, he]
          | false =>
            cases text with
            | some t => simp [retryLoop, attemptOutcome, h3, hc, repliesSpoken, hs t]
            | none => simp [retryLoop, attemptOutcome, h3, hc, repliesSpoken, hp]
    · simp [retryLoop, h3, repliesSpoken]

theorem ttsTryBody_shape (a m : Option String) :
    ttsTryBody a m = none
    ∨ ttsTryBody a m = some [Event.logError "Gemini TTS API response missing audio data."]
    ∨ ∃ w, ttsTryBody a m = some [Event.play w] := by
  unfold ttsTryBody
  split
  · split
    · exact Or.inl rfl
    · split
      · exact Or.inl rfl
      · split
        · exact Or.inl rfl
        · exact Or.inr (Or.inr ⟨_, rfl⟩)
  · exact Or.inr (Or.inl rfl)

theorem containsSub_nil (l : List Char) : containsSub l [] = true := by
  cases l <;> rfl

theorem getFilteredChatHistory_eq_filter (h : List Turn) (q : String) :
    getFilteredChatHistory h q =
      h.filter (fun t => containsSub (lowerStr t.text).toList (lowerStr q).toList) := by
  by_cases hq : q = ""
  · subst hq
    unfold getFilteredChatHistory
    rw [if_pos rfl]
    exact (List.filter_eq_self.mpr (fun a _ => containsSub_nil _)).symm
  · unfold getFilteredChatHistory
    rw [if_neg hq]

theorem sendMessage_image_trace (img : UploadedImage) (msg : String)
    (results : List NetResult) :
    sendMessage msg (some img) results =
      Event.suspendAudio :: Event.append ⟨Role.user, msg, some img.dataUrl⟩ ::
        Event.setInput "" :: Event.setLoading true ::
        Event.append ⟨Role.vision, "Analyzing the image provided...", none⟩ ::
        Event.clearImage :: retryLoop imageAnalysisCfg results 0 := by
  unfold sendMessage
  rw [if_neg (by simp)]
  rfl

theorem sendMessage_gen_trace (msg : String) (results : List NetResult)
    (htrim : trimStr msg ≠ "")
    (htrig : startsWithL (lowerStr msg).toList imagePromptPrefix.toList = true) :
    sendMessage msg none results =
      Event.suspendAudio :: Event.append ⟨Role.user, msg, none⟩ ::
        Event.setInput "" :: Event.setLoading true ::
        Event.append ⟨Role.vision, "Generating an image of: \"" ++
          trimStr (dropStr msg imagePromptPrefix.length) ++ "\"...", none⟩ ::
        retryLoop imageGenCfg results 0 := by
  unfold sendMessage
  rw [if_neg (by simp [htrim]), if_pos htrig]
  rfl

/- ---------------------------------------------------------------------
   Claim theorems.
--------------------------------------------------------------------- -/

set_option maxHeartbeats 4000000 in
/-- C1: for every sequence of 16-bit samples `s` and every sample rate
`r > 0`, `pcmToWav` returns a buffer of total length `44 + 2 * len s`
whose first 44 bytes are exactly the RIFF/WAVE header fields of the
specification at their stated offsets (all multi-byte integers
little-endian), followed from offset 44 by the samples in order as
little-endian 16-bit values; in particular `encode([], 24000)` is the
44-byte header-only buffer and `encode([0x1234, -1], 16000)` has byte rate
32000, data byte length 4, bytes 34 12 at offset 44 and FF FF at 46. -/
theorem c1_pcmToWav_layout_spec (s : List Int) (r : Nat) (_hr : 0 < r) :
    (pcmToWav s r).length = 44 + 2 * s.length
    ∧ (pcmToWav s r).take 4 = [82, 73, 70, 70]
    ∧ ((pcmToWav s r).drop 4).take 4 = le32 (36 + 2 * s.length)
    ∧ ((pcmToWav s r).drop 8).take 4 = [87, 65, 86, 69]
    ∧ ((pcmToWav s r).drop 12).take 4 = [102, 109, 116, 32]
    ∧ ((pcmToWav s r).drop 16).take 4 = le32 16
    ∧ ((pcmToWav s r).drop 20).take 2 = le16 1
    ∧ ((pcmToWav s r).drop 22).take 2 = le16 1
    ∧ ((pcmToWav s r).drop 24).take 4 = le32 r
    ∧ ((pcmToWav s r).drop 28).take 4 = le32 (r * 2)
    ∧ ((pcmToWav s r).drop 32).take 2 = le16 2
    ∧ ((pcmToWav s r).drop 34).take 2 = le16 16
    ∧ ((pcmToWav s r).drop 36).take 4 = [100, 97, 116, 97]
    ∧ ((pcmToWav s r).drop 40).take 4 = le32 (2 * s.length)
    ∧ (pcmToWav s r).drop 44 = sampleBytes s
    ∧ pcmToWav [] 24000 =
        [82, 73, 70, 70, 36, 0, 0, 0, 87, 65, 86, 69, 102, 109, 116, 32, 16, 0, 0, 0,
          1, 0, 1, 0, 192, 93, 0, 0, 128, 187, 0, 0, 2, 0, 16, 0, 100, 97, 116, 97,
          0, 0, 0, 0]
    ∧ ((pcmToWav [0x1234, -1] 16000).drop 28).take 4 = [0, 125, 0, 0]
    ∧ ((pcmToWav [0x1234, -1] 16000).drop 40).take 4 = [4, 0, 0, 0]
    ∧ ((pcmToWav [0x1234, -1] 16000).drop 44).take 2 = [0x34, 0x12]
    ∧ ((pcmToWav [0x1234, -1] 16000).drop 46).take 2 = [0xFF, 0xFF] := by
  have L := pcmToWav_layout s r
  refine ⟨?_, ?_, ?_, ?_, ?_, ?_, ?_, ?_, ?_, ?_, ?_, ?_, ?_, ?_, ?_, ?_, ?_, ?_, ?_, ?_⟩
  · rw [L, List.length_append, headerBytes_length, sampleBytes_length]
  · rw [L]; rfl
  · rw [L]; rfl
  · rw [L]; rfl
  · rw [L]; rfl
  · rw [L]; rfl
  · rw [L]; rfl
  · rw [L]; rfl
  · rw [L]; rfl
  · rw [L]; rfl
  · rw [L]; rfl
  · rw [L]; rfl
  · rw [L]; rfl
  · rw [L]; rfl
  · rw [L]; rfl
  · rw [pcmToWav_layout]; decide
  · rw [pcmToWav_layout]; decide
  · rw [pcmToWav_layout]; decide
  · rw [pcmToWav_layout]; decide
  · rw [pcmToWav_layout]; decide

/-- Witness for C1 at the concrete input of the specification:
`encode([], 24000)` has total length 44. -/
theorem c1_pcmToWav_layout_spec_witness :
    0 < 24000 ∧ (pcmToWav [] 24000).length = 44 + 2 * ([] : List Int).length :=
  ⟨by decide, (c1_pcmToWav_layout_spec [] 24000 (by decide)).1⟩

/-- C2: for every capability path and every call whose underlying attempt
throws twice and then succeeds with a parseable response, the retry loop
performs exactly 3 attempts, waits 2000 ms before the 2nd and 4000 ms
before the 3rd, emits the parsed success effects of the 3rd attempt, and
makes no further attempts afterwards (the trace is independent of any
further supplied outcomes, because the loop exits via the success
`break`). -/
theorem c2_retry_fail_twice_succeed (cfg : LoopConfig) (t : String)
    (rest : List NetResult) :
    retryLoop cfg ([NetResult.netThrow, NetResult.netThrow,
        NetResult.resp true (some t)] ++ rest) 0 =
      [Event.netCall, Event.wait 2000, Event.setLoading false,
        Event.netCall, Event.wait 4000, Event.setLoading false,
        Event.netCall] ++ (cfg.onSuccess t ++ [Event.setLoading false])
    ∧ countNetCalls (retryLoop imageAnalysisCfg ([NetResult.netThrow, NetResult.netThrow,
        NetResult.resp true (some t)] ++ rest) 0) = 3
    ∧ countNetCalls (retryLoop imageGenCfg ([NetResult.netThrow, NetResult.netThrow,
        NetResult.resp true (some t)] ++ rest) 0) = 3
    ∧ countNetCalls (retryLoop generalCfg ([NetResult.netThrow, NetResult.netThrow,
        NetResult.resp true (some t)] ++ rest) 0) = 3
    ∧ countNetCalls (retryLoop summarizeCfg ([NetResult.netThrow, NetResult.netThrow,
        NetResult.resp true (some t)] ++ rest) 0) = 3 :=
  ⟨rfl, rfl, rfl, rfl, rfl⟩

/-- C3: for every capability path whose attempts always throw, the retry
loop performs exactly 3 attempts and no more (independently of any further
supplied outcomes), and the failure effect — appending the fixed fallback
turn and speaking it — occurs exactly once per dispatch, not once per
retry; the loop is a total function, so no rejection escapes to the
caller. -/
theorem c3_retry_exhaustion_once (cfg : LoopConfig) (rest : List NetResult) :
    retryLoop cfg ([NetResult.netThrow, NetResult.netThrow, NetResult.netThrow] ++ rest) 0 =
      [Event.netCall, Event.wait 2000, Event.setLoading false,
        Event.netCall, Event.wait 4000, Event.setLoading false,
        Event.netCall, Event.append ⟨Role.vision, cfg.exhaustMsg, none⟩,
        Event.speak cfg.exhaustMsg, Event.setLoading false]
    ∧ countNetCalls (retryLoop cfg ([NetResult.netThrow, NetResult.netThrow,
        NetResult.netThrow] ++ rest) 0) = 3
    ∧ countAppends (retryLoop cfg ([NetResult.netThrow, NetResult.netThrow,
        NetResult.netThrow] ++ rest) 0) = 1
    ∧ countSpeaks (retryLoop cfg ([NetResult.netThrow, NetResult.netThrow,
        NetResult.netThrow] ++ rest) 0) = 1 :=
  ⟨rfl, rfl, rfl, rfl⟩

/-- C4 counterexample: on the image-analysis path a response with a
non-success transport status is not retried: the loop performs a single
attempt, no backoff wait, and parses the response (yielding the
malformed-response fallback), contradicting the claim that a non-success
status triggers the backoff-and-retry behavior on every path. -/
theorem c4_nonok_counterexample :
    retryLoop imageAnalysisCfg [NetResult.resp false none, NetResult.netThrow,
        NetResult.netThrow] 0 =
      [Event.netCall,
        Event.append ⟨Role.vision,
          "Sorry, I couldn\x27t analyze the image. The API returned an unexpected format.",
          none⟩,
        Event.speak
          "Sorry, I couldn\x27t analyze the image. The API returned an unexpected format.",
        Event.setLoading false]
    ∧ countNetCalls (retryLoop imageAnalysisCfg [NetResult.resp false none,
        NetResult.netThrow, NetResult.netThrow] 0) = 1
    ∧ countWaits (retryLoop imageAnalysisCfg [NetResult.resp false none,
        NetResult.netThrow, NetResult.netThrow] 0) = 0 :=
  ⟨rfl, rfl, rfl⟩

/-- C4 amended: only the general-conversation and summarization paths
check the transport status; on those paths a non-success status behaves
exactly like a thrown attempt (it is retried with backoff), while the
image-analysis and image-generation paths ignore the status entirely and
parse the response as if it had succeeded. -/
theorem c4_nonok_amended :
    (∀ cfg : LoopConfig, cfg.checksOk = true →
      ∀ (t : Option String) (rest : List NetResult) (rc : Nat),
        retryLoop cfg (NetResult.resp false t :: rest) rc =
          retryLoop cfg (NetResult.netThrow :: rest) rc)
    ∧ generalCfg.checksOk = true
    ∧ summarizeCfg.checksOk = true
    ∧ imageAnalysisCfg.checksOk = false
    ∧ imageGenCfg.checksOk = false
    ∧ (∀ t : Option String, attemptOutcome imageAnalysisCfg (NetResult.resp false t) =
        attemptOutcome imageAnalysisCfg (NetResult.resp true t))
    ∧ (∀ t : Option String, attemptOutcome imageGenCfg (NetResult.resp false t) =
        attemptOutcome imageGenCfg (NetResult.resp true t)) := by
  refine ⟨?_, rfl, rfl, rfl, rfl, fun t => rfl, fun t => rfl⟩
  intro cfg h t rest rc
  simp [retryLoop, attemptOutcome, h]

/-- Witness for C4 amended: the general-conversation path checks the
status, and a non-success response there is treated like a throw. -/
theorem c4_nonok_amended_witness :
    generalCfg.checksOk = true
    ∧ retryLoop generalCfg [NetResult.resp false none] 0 =
        retryLoop generalCfg [NetResult.netThrow] 0 :=
  ⟨rfl, c4_nonok_amended.1 generalCfg rfl none [] 0⟩

/-- C5 counterexample: a general-conversation dispatch appends no
provisional working turn: replaying a successful dispatch yields only the
user turn and the reply, contradicting the claim that every path appends a
placeholder turn that is retained alongside the reply. -/
theorem c5_placeholder_counterexample :
    replayTurns (sendMessage "hi" none [NetResult.resp true (some "yo")]) =
      [⟨Role.user, "hi", none⟩, ⟨Role.vision, "yo", none⟩]
    ∧ (replayTurns (sendMessage "hi" none [NetResult.resp true (some "yo")])).length = 2 :=
  ⟨by decide, by decide⟩

/-- C5 amended: the image-analysis and image-generation paths append a
provisional working turn before the network call begins — for every
supplied sequence of network outcomes the dispatch trace is exactly the
fixed pre-loop prefix (in which the placeholder append occurs) followed by
the retry loop, so the placeholder append precedes every `netCall` event —
and retain the placeholder together with the final reply as separate
turns; the general-conversation path appends no placeholder, so a
successful dispatch there consists of the user turn followed directly by
the reply. -/
theorem c5_placeholder_amended :
    (∀ (img : UploadedImage) (msg : String) (results : List NetResult),
      sendMessage msg (some img) results =
        Event.suspendAudio :: Event.append ⟨Role.user, msg, some img.dataUrl⟩ ::
          Event.setInput "" :: Event.setLoading true ::
          Event.append ⟨Role.vision, "Analyzing the image provided...", none⟩ ::
          Event.clearImage :: retryLoop imageAnalysisCfg results 0)
    ∧ (∀ (img : UploadedImage) (msg : String) (results : List NetResult),
      appendBeforeNetCalls ⟨Role.vision, "Analyzing the image provided...", none⟩
        (sendMessage msg (some img) results) = true)
    ∧ (∀ (msg : String) (results : List NetResult),
      trimStr msg ≠ "" →
      startsWithL (lowerStr msg).toList imagePromptPrefix.toList = true →
      sendMessage msg none results =
        Event.suspendAudio :: Event.append ⟨Role.user, msg, none⟩ ::
          Event.setInput "" :: Event.setLoading true ::
          Event.append ⟨Role.vision, "Generating an image of: \"" ++
            trimStr (dropStr msg imagePromptPrefix.length) ++ "\"...", none⟩ ::
          retryLoop imageGenCfg results 0)
    ∧ (∀ (msg : String) (results : List NetResult),
      trimStr msg ≠ "" →
      startsWithL (lowerStr msg).toList imagePromptPrefix.toList = true →
      appendBeforeNetCalls ⟨Role.vision, "Generating an image of: \"" ++
          trimStr (dropStr msg imagePromptPrefix.length) ++ "\"...", none⟩
        (sendMessage msg none results) = true)
    ∧ (∀ (img : UploadedImage) (msg t : String) (rest : List NetResult),
      replayTurns (sendMessage msg (some img) (NetResult.resp true (some t) :: rest)) =
        [⟨Role.user, msg, some img.dataUrl⟩,
          ⟨Role.vision, "Analyzing the image provided...", none⟩,
          ⟨Role.vision, t, none⟩])
    ∧ (∀ (msg b : String) (rest : List NetResult),
      trimStr msg ≠ "" →
      startsWithL (lowerStr msg).toList imagePromptPrefix.toList = true →
      replayTurns (sendMessage msg none (NetResult.resp true (some b) :: rest)) =
        [⟨Role.user, msg, none⟩,
          ⟨Role.vision, "Generating an image of: \"" ++
            trimStr (dropStr msg imagePromptPrefix.length) ++ "\"...", none⟩,
          ⟨Role.vision, "Image generated successfully.",
            some ("data:image/png;base64," ++ b)⟩])
    ∧ (∀ (msg t : String) (rest : List NetResult),
      trimStr msg ≠ "" →
      startsWithL (lowerStr msg).toList imagePromptPrefix.toList = false →
      replayTurns (sendMessage msg none (NetResult.resp true (some t) :: rest)) =
        [⟨Role.user, msg, none⟩, ⟨Role.vision, t, none⟩]) := by
  refine ⟨sendMessage_image_trace, ?_, ?_, ?_, ?_, ?_, ?_⟩
  · intro img msg results
    rw [sendMessage_image_trace]
    simp [appendBeforeNetCalls]
  · intro msg results htrim htrig
    exact sendMessage_gen_trace msg results htrim htrig
  · intro msg results htrim htrig
    rw [sendMessage_gen_trace msg results htrim htrig]
    simp [appendBeforeNetCalls]
  · intro img msg t rest
    rw [sendMessage_image_trace]
    rfl
  · intro msg b rest htrim htrig
    rw [sendMessage_gen_trace msg _ htrim htrig]
    rfl
  · intro msg t rest htrim htrig
    have hng : ¬(startsWithL (lowerStr msg).toList imagePromptPrefix.toList = true) := by
      rw [htrig]; simp
    unfold sendMessage
    rw [if_neg (by simp [htrim]), if_neg hng]
    rfl

/-- Witness for C5 amended at concrete inputs: an image-generation
dispatch appends its placeholder before the first network attempt and
retains placeholder and reply; a general dispatch has no placeholder. -/
theorem c5_placeholder_amended_witness :
    appendBeforeNetCalls ⟨Role.vision, "Generating an image of: \"a fox\"...", none⟩
      (sendMessage "generate an image of a fox" none [NetResult.resp true (some "B64")]) = true
    ∧ replayTurns (sendMessage "generate an image of a fox" none
        [NetResult.resp true (some "B64")]) =
      [⟨Role.user, "generate an image of a fox", none⟩,
        ⟨Role.vision, "Generating an image of: \"a fox\"...", none⟩,
        ⟨Role.vision, "Image generated successfully.", some "data:image/png;base64,B64"⟩]
    ∧ replayTurns (sendMessage "How are you" none [NetResult.resp true (some "Fine")]) =
      [⟨Role.user, "How are you", none⟩, ⟨Role.vision, "Fine", none⟩] := by
  refine ⟨?_, ?_, ?_⟩
  · have h := c5_placeholder_amended.2.2.2.1 "generate an image of a fox"
      [NetResult.resp true (some "B64")] (by decide) (by decide)
    have he : (⟨Role.vision, "Generating an image of: \"" ++
        trimStr (dropStr "generate an image of a fox" imagePromptPrefix.length) ++ "\"...",
        none⟩ : Turn) =
        ⟨Role.vision, "Generating an image of: \"a fox\"...", none⟩ := by decide
    rw [he] at h
    exact h
  · have h := c5_placeholder_amended.2.2.2.2.2.1 "generate an image of a fox" "B64" []
      (by decide) (by decide)
    rw [h]; decide
  · have h := c5_placeholder_amended.2.2.2.2.2.2 "How are you" "Fine" []
      (by decide) (by decide)
    rw [h]

/-- C6 counterexample: on a summarization success, the appended turn text
is the fixed prefix plus the summary while the spoken string is only the
fixed announcement, so the speech pipeline is not invoked with the
appended turn text, contradicting the claim for the summarization success
reply. -/
theorem c6_speak_counterexample :
    repliesSpoken speaksOwnText (retryLoop summarizeCfg
      [NetResult.resp true (some "The user greeted the assistant.")] 0) = false := by
  decide

/-- C6 amended: in every outcome of the image-analysis, image-generation
and general-conversation loops, every appended reply turn is immediately
followed by a speech-synthesis invocation with exactly that turn text
(including the fixed fallback strings); in the summarization loop the
failure replies are also spoken verbatim — the malformed-response and
retry-exhaustion traces speak exactly the appended fallback turn text —
but the success reply, whose appended text is the fixed prefix plus the
summary, is announced with the fixed string "Here is a summary of our
conversation." instead of the full turn text. -/
theorem c6_speak_amended :
    (∀ (results : List NetResult) (rc : Nat),
      repliesSpoken speaksOwnText (retryLoop imageAnalysisCfg results rc) = true)
    ∧ (∀ (results : List NetResult) (rc : Nat),
      repliesSpoken speaksOwnText (retryLoop imageGenCfg results rc) = true)
    ∧ (∀ (results : List NetResult) (rc : Nat),
      repliesSpoken speaksOwnText (retryLoop generalCfg results rc) = true)
    ∧ (∀ (results : List NetResult) (rc : Nat),
      repliesSpoken speaksOwnTextOrAnnounce (retryLoop summarizeCfg results rc) = true)
    ∧ (∀ (t : String) (rest : List NetResult),
      retryLoop summarizeCfg (NetResult.resp true (some t) :: rest) 0 =
        [Event.netCall,
          Event.append ⟨Role.vision, "Here is a summary of our conversation:\n\n" ++ t,
            none⟩,
          Event.speak "Here is a summary of our conversation.",
          Event.setLoading false])
    ∧ (∀ rest : List NetResult,
      retryLoop summarizeCfg (NetResult.resp true none :: rest) 0 =
        [Event.netCall,
          Event.append ⟨Role.vision, "Sorry, I couldn\x27t summarize the conversation.",
            none⟩,
          Event.speak "Sorry, I couldn\x27t summarize the conversation.",
          Event.setLoading false])
    ∧ (∀ rest : List NetResult,
      retryLoop summarizeCfg ([NetResult.netThrow, NetResult.netThrow,
          NetResult.netThrow] ++ rest) 0 =
        [Event.netCall, Event.wait 2000, Event.setLoading false,
          Event.netCall, Event.wait 4000, Event.setLoading false,
          Event.netCall,
          Event.append ⟨Role.vision,
            "I\x27m sorry, I am currently unable to summarize the conversation. Please try again later.",
            none⟩,
          Event.speak
            "I\x27m sorry, I am currently unable to summarize the conversation. Please try again later.",
          Event.setLoading false]) := by
  refine ⟨?_, ?_, ?_, ?_, fun t rest => rfl, fun rest => rfl, fun rest => rfl⟩
  · exact repliesSpoken_retryLoop _ _
      (fun t => by simp [imageAnalysisCfg, repliesSpoken, speaksOwnText]) rfl rfl
  · exact repliesSpoken_retryLoop _ _
      (fun t => by simp [imageGenCfg, repliesSpoken, speaksOwnText]) rfl rfl
  · exact repliesSpoken_retryLoop _ _
      (fun t => by simp [generalCfg, repliesSpoken, speaksOwnText]) rfl rfl
  · exact repliesSpoken_retryLoop _ _
      (fun t => by simp [summarizeCfg, repliesSpoken, speaksOwnTextOrAnnounce]) rfl rfl

/-- C7 counterexample: a general-conversation dispatch whose attempts
throw twice and then succeed releases the loading flag three times — once
per loop iteration, because the `finally` block sits inside the while loop
— contradicting the claim that `setIsLoading(false)` fires exactly once
per dispatch. -/
theorem c7_loading_counterexample :
    countLoadingFalse (sendMessage "hi" none [NetResult.netThrow, NetResult.netThrow,
        NetResult.resp true (some "yo")]) = 3
    ∧ ¬(countLoadingFalse (sendMessage "hi" none [NetResult.netThrow, NetResult.netThrow,
        NetResult.resp true (some "yo")]) = 1) :=
  ⟨by decide, by decide⟩

/-- C7 amended: on every capability path the loading-flag release fires
exactly once per attempt performed (once per loop iteration, since the
`finally` block is inside the loop), and therefore at least once per
dispatch on every outcome — but not exactly once per dispatch whenever a
retry occurs. -/
theorem c7_loading_amended :
    (∀ (results : List NetResult) (rc : Nat),
      countLoadingFalse (retryLoop imageAnalysisCfg results rc) =
        countNetCalls (retryLoop imageAnalysisCfg results rc))
    ∧ (∀ (results : List NetResult) (rc : Nat),
      countLoadingFalse (retryLoop imageGenCfg results rc) =
        countNetCalls (retryLoop imageGenCfg results rc))
    ∧ (∀ (results : List NetResult) (rc : Nat),
      countLoadingFalse (retryLoop generalCfg results rc) =
        countNetCalls (retryLoop generalCfg results rc))
    ∧ (∀ (results : List NetResult) (rc : Nat),
      countLoadingFalse (retryLoop summarizeCfg results rc) =
        countNetCalls (retryLoop summarizeCfg results rc))
    ∧ (∀ (cfg : LoopConfig) (n : NetResult) (rest : List NetResult),
      1 ≤ countLoadingFalse (retryLoop cfg (n :: rest) 0)) :=
  ⟨loadingFalse_eq_netCalls_retryLoop _ (fun _ => rfl) (fun _ => rfl),
    loadingFalse_eq_netCalls_retryLoop _ (fun _ => rfl) (fun _ => rfl),
    loadingFalse_eq_netCalls_retryLoop _ (fun _ => rfl) (fun _ => rfl),
    loadingFalse_eq_netCalls_retryLoop _ (fun _ => rfl) (fun _ => rfl),
    one_loadingFalse_retryLoop⟩

/-- C8: the speech-synthesis operation never surfaces an exception to its
caller, never retries, and never appends a conversation turn: for every
network outcome its trace contains no append, wait or speak events; a
thrown call is logged; a response missing the base64 payload or the MIME
type yields only the missing-data log; and an `audio/*` MIME type without
a `rate=` parameter raises a TypeError inside the try block that the catch
logs and swallows. -/
theorem c8_tts_swallowed :
    (∀ net : TTSNet,
      countAppends (fetchAndPlayGeminiTTS net) = 0
      ∧ countWaits (fetchAndPlayGeminiTTS net) = 0
      ∧ countSpeaks (fetchAndPlayGeminiTTS net) = 0)
    ∧ fetchAndPlayGeminiTTS TTSNet.netThrow = [Event.logError "Error calling Gemini TTS API:"]
    ∧ (∀ m : Option String, fetchAndPlayGeminiTTS (TTSNet.resp none m) =
        [Event.logError "Gemini TTS API response missing audio data."])
    ∧ (∀ d : Option String, fetchAndPlayGeminiTTS (TTSNet.resp d none) =
        [Event.logError "Gemini TTS API response missing audio data."])
    ∧ fetchAndPlayGeminiTTS (TTSNet.resp (some "AAAAAAAA") (some "audio/L16;codec=pcm")) =
        [Event.logError "Error calling Gemini TTS API:"] := by
  refine ⟨?_, rfl, fun m => rfl, ?_, by decide⟩
  · intro net
    cases net with
    | netThrow => exact ⟨rfl, rfl, rfl⟩
    | resp a m =>
      rcases ttsTryBody_shape a m with h | h | ⟨w, h⟩ <;>
        simp [fetchAndPlayGeminiTTS, h, countAppends, countWaits, countSpeaks]
  · intro d
    cases d with
    | none => rfl
    | some s => simp [fetchAndPlayGeminiTTS, ttsTryBody, truthy]

/-- C9: for every conversation and every query, the filter returns exactly
the turns whose lowercased text contains the lowercased query as a
substring, via `List.filter` — hence a subsequence preserving the original
relative order; an empty query returns the full sequence unchanged; and
filtering the store ["Hello there", "goodbye", "say hello again"] by
"hello" returns the 1st and 3rd turns in that order. -/
theorem c9_filter_spec (h : List Turn) (q : String) :
    getFilteredChatHistory h q =
      h.filter (fun t => containsSub (lowerStr t.text).toList (lowerStr q).toList)
    ∧ List.Sublist (getFilteredChatHistory h q) h
    ∧ (q = "" → getFilteredChatHistory h q = h)
    ∧ getFilteredChatHistory demoTurns "hello" =
        [⟨Role.user, "Hello there", none⟩, ⟨Role.user, "say hello again", none⟩] := by
  refine ⟨getFilteredChatHistory_eq_filter h q, ?_, ?_, by decide⟩
  · rw [getFilteredChatHistory_eq_filter h q]
    exact List.filter_sublist h
  · intro hq
    simp [getFilteredChatHistory, hq]

/-- Witness for C9 at the empty query: the demonstration store is returned
unchanged. -/
theorem c9_filter_spec_witness : getFilteredChatHistory demoTurns "" = demoTurns :=
  (c9_filter_spec demoTurns "").2.2.1 rfl

/-- C10: for every dispatch that is not a no-op (non-whitespace text or an
attached image), the first two events are suspending the audio and
appending the user turn — role user, text equal to the input message, and
the attachment data URL as its image reference when an image is attached —
so the user turn is the first turn appended, before any placeholder or
assistant turn and before any network attempt starts. -/
theorem c10_user_turn_first (msg : String) (img : Option UploadedImage)
    (results : List NetResult) (h : trimStr msg ≠ "" ∨ img ≠ none) :
    (sendMessage msg img results).take 2 =
      [Event.suspendAudio, Event.append ⟨Role.user, msg, img.map UploadedImage.dataUrl⟩]
    ∧ firstAppend (sendMessage msg img results) =
      some ⟨Role.user, msg, img.map UploadedImage.dataUrl⟩ := by
  have hg : ¬(trimStr msg = "" ∧ img = none) := by
    rcases h with h | h
    · exact fun hc => h hc.1
    · exact fun hc => h hc.2
  unfold sendMessage
  rw [if_neg hg]
  cases img with
  | some i => exact ⟨rfl, rfl⟩
  | none =>
    by_cases ht : startsWithL (lowerStr msg).toList imagePromptPrefix.toList = true
    · rw [if_pos ht]; exact ⟨rfl, rfl⟩
    · rw [if_neg ht]; exact ⟨rfl, rfl⟩

/-- Witness for C10 at a concrete dispatch: "hi" with no image. -/
theorem c10_user_turn_first_witness :
    (trimStr "hi" ≠ "" ∨ (none : Option UploadedImage) ≠ none)
    ∧ (sendMessage "hi" none []).take 2 =
        [Event.suspendAudio, Event.append ⟨Role.user, "hi", none⟩] := by
  refine ⟨Or.inl (by decide), ?_⟩
  have h := (c10_user_turn_first "hi" none [] (Or.inl (by decide))).1
  rw [h]
  decide
